import Mathlib

/-!
Verification of the keyframe-extraction core of the mooderi video processor.

The definitions below are a shallow embedding of `src/modal_video_processor.py`
(the "Supabase" variant) and of `src/.archive/scripts/modal_fix.py` (the
"Convex" variant).  Timestamps, thresholds and measured image statistics are
modelled as rationals; the external video decoder, the saved jpeg images and
the perceptual hasher are modelled by their observable outcomes: a frame is a
record of every quantity the quality checks read off the decoded image, where
an `Option` field is `none` when computing that quantity raises an exception
inside the `try` block of `is_bad_frame`.
-/

/-- Python `int(q)` on a rational: truncation toward zero. -/
def pyInt (q : ℚ) : ℤ := if 0 ≤ q then q.floor else q.ceil

/-- A perceptual hash (imagehash.phash result): a fixed-length bit vector. -/
abbrev Fingerprint := List Bool

/-- Distance between two perceptual hashes: number of differing bits
(imagehash `__sub__`, a Hamming distance; hashes in one run share one length). -/
def hashDiff (a b : Fingerprint) : ℕ :=
  ((a.zip b).filter (fun p => p.1 != p.2)).length

/-- Rejection / evaluation reasons returned by `is_bad_frame` and attached to
rejected frames.  `check_error` stands for the source's dynamic string
`"check_error: <exception text>"`; `other` only occurs as a pre-initialised
histogram key in the main variant; `OK` is the reason string of a passing
frame. -/
inductive Reason where
  | OK
  | unreadable
  | black
  | solid_color
  | text_only
  | blurry
  | low_contrast
  | check_error
  | not_sharpest
  | duplicate
  | other
deriving DecidableEq, Repr

/-- One entry of `QUALITY_PRESETS` (src/modal_video_processor.py lines 43-71). -/
structure Preset where
  blur_threshold : ℚ
  black_threshold : ℚ
  variance_threshold : ℚ
  edge_threshold : ℚ
  contrast_threshold : ℚ
  phash_threshold : ℕ
  description : String
deriving DecidableEq, Repr

/-- `QUALITY_PRESETS["strict"]`. -/
def strictPreset : Preset :=
  { blur_threshold := 50
    black_threshold := 0.75
    variance_threshold := 200
    edge_threshold := 0.02
    contrast_threshold := 50
    phash_threshold := 6
    description := "Highest quality only - saves credits" }

/-- `QUALITY_PRESETS["medium"]`. -/
def mediumPreset : Preset :=
  { blur_threshold := 25
    black_threshold := 0.85
    variance_threshold := 100
    edge_threshold := 0.01
    contrast_threshold := 30
    phash_threshold := 8
    description := "Balanced quality - recommended" }

/-- `QUALITY_PRESETS["high"]`. -/
def highPreset : Preset :=
  { blur_threshold := 10
    black_threshold := 0.92
    variance_threshold := 50
    edge_threshold := 0.005
    contrast_threshold := 20
    phash_threshold := 10
    description := "Minimal cuts - only removes completely black/blurry" }

/-- `QUALITY_PRESETS.get(quality_mode, QUALITY_PRESETS["medium"])`: preset
lookup with fallback to "medium" for unknown names. -/
def qualityPreset (quality_mode : String) : Preset :=
  if quality_mode = "strict" then strictPreset
  else if quality_mode = "medium" then mediumPreset
  else if quality_mode = "high" then highPreset
  else mediumPreset

/-- One decoded candidate frame, as observed through the saved jpeg.
`readable = false` models `cv2.imread` returning `None` (check 1).  Each of
the measured quantities is `none` when the corresponding computation inside
the `try` block of `is_bad_frame` raises; `phash` is `none` when
`imagehash.phash` fails in `compute_phash`. -/
structure Frame where
  readable : Bool
  blackFrac : Option ℚ
  variance : Option ℚ
  edgeFrac : Option ℚ
  lapVar : Option ℚ
  histBins : Option ℕ
  phash : Option Fingerprint
deriving DecidableEq, Repr

/-- The check sequence of `is_bad_frame` after the preset lookup
(src/modal_video_processor.py lines 106-145): checks run in a fixed order and
short-circuit; a measurement that raises (`none`) yields the fail-open result
`(false, check_error)`. -/
def is_bad_checks (preset : Preset) (f : Frame) : Bool × Reason :=
  if !f.readable then (true, Reason.unreadable)
  else
    match f.blackFrac with
    | none => (false, Reason.check_error)
    | some black_ratio =>
      if black_ratio > preset.black_threshold then (true, Reason.black)
      else
        match f.variance with
        | none => (false, Reason.check_error)
        | some variance =>
          if variance < preset.variance_threshold then (true, Reason.solid_color)
          else
            match f.edgeFrac with
            | none => (false, Reason.check_error)
            | some edge_ratio =>
              if edge_ratio < preset.edge_threshold ∧ variance < 500 then
                (true, Reason.text_only)
              else
                match f.lapVar with
                | none => (false, Reason.check_error)
                | some sharpness =>
                  if sharpness < preset.blur_threshold then (true, Reason.blurry)
                  else
                    match f.histBins with
                    | none => (false, Reason.check_error)
                    | some non_zero =>
                      if (non_zero : ℚ) < preset.contrast_threshold then
                        (true, Reason.low_contrast)
                      else (false, Reason.OK)

/-- `is_bad_frame(image_path, quality_mode)`: preset lookup, then the six
quality checks on the frame saved at that path. -/
def is_bad_frame (f : Frame) (quality_mode : String) : Bool × Reason :=
  is_bad_checks (qualityPreset quality_mode) f

/-- `measure_sharpness(image_path)`: Laplacian variance of the grayscale
image; `0` when the image cannot be read or the computation raises. -/
def measure_sharpness (f : Frame) : ℚ :=
  if f.readable then f.lapVar.getD 0 else 0

/-- `compute_phash(image_path)`: perceptual hash of the saved frame, `None`
on failure. -/
def compute_phash (f : Frame) : Option Fingerprint := f.phash

/-- `is_duplicate(current_hash, seen_hashes, threshold)`
(src/modal_video_processor.py lines 158-165). -/
def is_duplicate (current_hash : Option Fingerprint)
    (seen_hashes : List (Option Fingerprint)) (threshold : ℕ) : Bool :=
  match current_hash with
  | none => false
  | some c => seen_hashes.any (fun h =>
      match h with
      | none => false
      | some hh => decide (hashDiff c hh < threshold))

/-- A shot produced by scene detection: the source dict
`{'start': ..., 'end': ...}` (seconds). -/
structure Scene where
  start : ℚ
  stop : ℚ
deriving DecidableEq, Repr

/-- `detect_scenes(video_path, threshold)` (lines 172-179).  The external
`scenedetect.detect` call is modelled by its outcome: either the detected
list of `(start_seconds, end_seconds)` pairs, or the message of the exception
it raises (for example when the video cannot be decoded).  The source wraps
the call in `try`, maps the result to dicts, and returns `[]` on any
exception. -/
def detect_scenes (detection : Except String (List (ℚ × ℚ))) : List Scene :=
  match detection with
  | Except.ok scene_list => scene_list.map (fun s => ⟨s.1, s.2⟩)
  | Except.error _ => []

/-- The caller-side check `if not scenes:` of `process_video`
(src/modal_video_processor.py lines 600-603): an empty scene list is mapped
to the terminal failure string `"No scenes"`. -/
def sceneCheckFailure (scenes : List Scene) : Option String :=
  if scenes.isEmpty then some "No scenes" else none

/-- The observable behaviour of `cv2.VideoCapture` for one video: frame rate,
reported total frame count, and the decode result for each frame index
(`none` models `cap.read()` returning `ret = False`; reading a given frame
index always yields the same image). -/
structure VideoCap where
  fps : ℚ
  totalFrames : ℕ
  read : ℤ → Option Frame

/-- On-disk names used in `frames_dir`: `temp_{scene_idx}_{frame_num}.jpg`,
`selected_{n:04d}.jpg` and `rejected_{n:04d}.jpg`. -/
inductive FsPath where
  | temp (scene_idx : ℕ) (frame_num : ℤ)
  | sel (n : ℕ)
  | rej (n : ℕ)
deriving DecidableEq, Repr

/-- `cv2.imwrite`: make the path exist (idempotent overwrite). -/
def insertPath (p : FsPath) (files : List FsPath) : List FsPath :=
  if p ∈ files then files else files ++ [p]

/-- One element of `selected_frames`: the source dict with keys `path`,
`scene_start`, `scene_end`, `sharpness`, `selected: True`. -/
structure SelEntry where
  path : FsPath
  scene_start : ℚ
  scene_end : ℚ
  sharpness : ℚ
  selected : Bool
deriving DecidableEq, Repr

/-- One element of `rejected_in_scene` / `rejected_frames`: keys `path`,
`reason`, `scene_start`, `scene_end`, an optional `timestamp` (present only
for quality rejections) and the `selected: False` flag (the source attaches
the flag at the rename step; its value is the constant `False`, so it is
carried from creation here). -/
structure RejEntry where
  path : FsPath
  reason : Reason
  scene_start : ℚ
  scene_end : ℚ
  timestamp : Option ℚ
  selected : Bool
deriving DecidableEq, Repr

/-- The `stats["rejected"]` histogram: an insertion-ordered association list,
mirroring a Python dict from reason to count. -/
abbrev Stats := List (Reason × ℕ)

/-- Python `d.get(r)` on the histogram. -/
def statsGet : Stats → Reason → Option ℕ
  | [], _ => none
  | p :: rest, r => if p.1 = r then some p.2 else statsGet rest r

/-- Python `d[r] = d.get(r, 0) + 1`: update in place when the key exists,
otherwise append the new key (dicts preserve insertion order). -/
def statsBump (s : Stats) (r : Reason) : Stats :=
  match statsGet s r with
  | some _ => s.map (fun p => if p.1 = r then (p.1, p.2 + 1) else p)
  | none => s ++ [(r, 1)]

/-- Python `d[r] += 1` on a key that is present (the main variant increments
`"duplicate"` this way; the key is always present in its pre-initialised
histogram). -/
def statsIncr (s : Stats) (r : Reason) : Stats :=
  s.map (fun p => if p.1 = r then (p.1, p.2 + 1) else p)

/-- Sum of all histogram counts. -/
def statsTotal (s : Stats) : ℕ := (s.map (fun p => p.2)).sum

/-- The mutable state of one extraction run: the jpeg files currently in
`frames_dir`, the `selected_frames`, `rejected_frames` and `seen_hashes`
lists, and the `stats["rejected"]` histogram. -/
structure ExtractState where
  files : List FsPath
  selected : List SelEntry
  rejected : List RejEntry
  seen : List (Option Fingerprint)
  stats : Stats
deriving DecidableEq, Repr

/-- The initial run state over an emptied `frames_dir`. -/
def initState (stats0 : Stats) : ExtractState :=
  ⟨[], [], [], [], stats0⟩

/-- The accumulator of the per-scene sample loop: the file set, the current
best (sharpest) candidate, `rejected_in_scene`, and the histogram. -/
structure ShotAcc where
  files : List FsPath
  bestSharp : ℚ
  bestPath : Option FsPath
  bestFrame : Option Frame
  rejScene : List RejEntry
  stats : Stats
deriving Repr

/-- Sample timestamps of one shot (lines 230-237): for `i` below
`samples_per_scene`, the point `start + duration * (0.2 + 0.3 * i)`, kept
only when it is strictly before the shot's end. -/
def samplePoints (start stop : ℚ) (samples_per_scene : ℕ) : List ℚ :=
  (List.range samples_per_scene).filterMap (fun (i : ℕ) =>
    let offset := (stop - start) * (0.2 + 0.3 * (i : ℚ))
    let sample_time := start + offset
    if sample_time < stop then some sample_time else none)

/-- The body of the per-sample loop (lines 245-294): seek, decode, save the
jpeg, run the quality gate, and either record a rejection or contend for the
sharpest slot (demoting a previous best that still exists on disk). -/
def sampleStep (env : VideoCap) (quality_mode : String) (scene_idx : ℕ)
    (scene : Scene) (acc : ShotAcc) (sample_time : ℚ) : ShotAcc :=
  let frame_num := pyInt (sample_time * env.fps)
  if (env.totalFrames : ℤ) ≤ frame_num then acc
  else
    match env.read frame_num with
    | none => acc
    | some frame =>
      let temp_path := FsPath.temp scene_idx frame_num
      let files1 := insertPath temp_path acc.files
      let check := is_bad_frame frame quality_mode
      if check.1 then
        { acc with
          files := files1
          stats := statsBump acc.stats check.2
          rejScene := acc.rejScene ++
            [⟨temp_path, check.2, scene.start, scene.stop, some sample_time, false⟩] }
      else
        let sharpness := measure_sharpness frame
        if acc.bestSharp < sharpness then
          let demoted : List RejEntry :=
            match acc.bestPath with
            | some bp =>
              if bp ∈ files1 then
                [⟨bp, Reason.not_sharpest, scene.start, scene.stop, none, false⟩]
              else []
            | none => []
          { files := files1
            bestSharp := sharpness
            bestPath := some temp_path
            bestFrame := some frame
            rejScene := acc.rejScene ++ demoted
            stats := acc.stats }
        else
          { acc with
            files := files1
            rejScene := acc.rejScene ++
              [⟨temp_path, Reason.not_sharpest, scene.start, scene.stop, none, false⟩] }

/-- One step of the rename loop over `rejected_in_scene` (lines 322-329):
entries whose file still exists are renamed to `rejected_{n:04d}.jpg` and
appended to the global rejected list; entries whose file was already moved
are dropped. -/
def renameStep (p : List FsPath × List RejEntry) (rej : RejEntry) :
    List FsPath × List RejEntry :=
  if rej.path ∈ p.1 then
    let new_path := FsPath.rej p.2.length
    (insertPath new_path (p.1.erase rej.path),
     p.2 ++ [{ rej with path := new_path, selected := false }])
  else p

/-- The tail of one scene iteration (lines 296-329): the duplicate check and
promotion of the winning frame, then the rename loop over the scene's
rejected entries.  The best-candidate fields of the sample-loop accumulator
are received as explicit arguments. -/
def finishShot (dupBump : Stats → Stats) (phash_threshold : ℕ) (scene : Scene)
    (st : ExtractState) (files : List FsPath) (bestSharp : ℚ)
    (bestPath : Option FsPath) (bestFrame : Option Frame)
    (rejScene : List RejEntry) (stats : Stats) : ExtractState :=
  match bestPath, bestFrame with
  | some bp, some bf =>
    if 0 < bestSharp then
      let current_hash := compute_phash bf
      if is_duplicate current_hash st.seen phash_threshold then
        let rejScene2 := rejScene ++
          [⟨bp, Reason.duplicate, scene.start, scene.stop, none, false⟩]
        let pr := rejScene2.foldl renameStep (files, st.rejected)
        ⟨pr.1, st.selected, pr.2, st.seen, dupBump stats⟩
      else
        let final_path := FsPath.sel st.selected.length
        let files2 := insertPath final_path (files.erase bp)
        let pr := rejScene.foldl renameStep (files2, st.rejected)
        ⟨pr.1,
         st.selected ++ [⟨final_path, scene.start, scene.stop, bestSharp, true⟩],
         pr.2, st.seen ++ [current_hash], stats⟩
    else
      let pr := rejScene.foldl renameStep (files, st.rejected)
      ⟨pr.1, st.selected, pr.2, st.seen, stats⟩
  | _, _ =>
    let pr := rejScene.foldl renameStep (files, st.rejected)
    ⟨pr.1, st.selected, pr.2, st.seen, stats⟩

/-- One iteration of the scene loop (lines 223-329): skip shots whose frame
count `int(duration * fps)` is below 3, otherwise sample, score, pick the
sharpest, dedupe and rename. -/
def processShot (dupBump : Stats → Stats) (env : VideoCap)
    (quality_mode : String) (samples_per_scene : ℕ) (scene_idx : ℕ)
    (scene : Scene) (st : ExtractState) : ExtractState :=
  let scene_duration := scene.stop - scene.start
  let scene_frame_count := pyInt (scene_duration * env.fps)
  if scene_frame_count < 3 then st
  else
    let pts := samplePoints scene.start scene.stop samples_per_scene
    let acc := pts.foldl (sampleStep env quality_mode scene_idx scene)
      ⟨st.files, 0, none, none, [], st.stats⟩
    finishShot dupBump (qualityPreset quality_mode).phash_threshold scene st
      acc.files acc.bestSharp acc.bestPath acc.bestFrame acc.rejScene acc.stats

/-- The scene loop with its early exit (lines 223-333): after each shot,
processing stops as soon as `len(selected_frames) >= max_frames`; remaining
shots are not visited. -/
def processScenes (dupBump : Stats → Stats) (env : VideoCap)
    (quality_mode : String) (samples_per_scene max_frames : ℕ) :
    ℕ → List Scene → ExtractState → ExtractState
  | _, [], st => st
  | scene_idx, scene :: rest, st =>
    let st2 := processShot dupBump env quality_mode samples_per_scene
      scene_idx scene st
    if max_frames ≤ st2.selected.length then st2
    else processScenes dupBump env quality_mode samples_per_scene max_frames
      (scene_idx + 1) rest st2

/-- Python `valid_scenes[::step]`: every `step`-th scene starting at index 0. -/
def strideSelect (l : List Scene) (step : ℕ) : List Scene :=
  (l.enum.filter (fun p => decide (p.1 % step = 0))).map (fun p => p.2)

/-- The returned dict of `extract_smart_keyframes`. -/
structure ExtractResult where
  selected : List SelEntry
  rejected : List RejEntry
  total_scenes : ℕ
  statsRejected : Stats
  quality_mode : String
deriving DecidableEq, Repr

/-- The body shared by the two `extract_smart_keyframes` variants
(src/modal_video_processor.py lines 182-345 and
src/.archive/scripts/modal_fix.py lines 229-366), parameterised by the two
points where the variants differ: the initial `stats["rejected"]` histogram
and the duplicate-count increment.  Short scenes are filtered by
`min_scene_duration`; when more than `2 * max_frames` scenes remain the list
is stride-downsampled with `step = len // max_frames`, which in Python
raises `ZeroDivisionError` when `max_frames == 0` (modelled as the `error`
outcome). -/
def extractCore (stats0 : Stats) (dupBump : Stats → Stats) (env : VideoCap)
    (scenes : List Scene) (max_frames samples_per_scene : ℕ)
    (min_scene_duration : ℚ) (quality_mode : String) :
    Except String ExtractResult :=
  let valid_scenes := scenes.filter
    (fun s => decide (min_scene_duration ≤ s.stop - s.start))
  let chosen : Except String (List Scene) :=
    if valid_scenes.length > max_frames * 2 then
      if max_frames = 0 then Except.error "integer division by zero"
      else Except.ok (strideSelect valid_scenes (valid_scenes.length / max_frames))
    else Except.ok valid_scenes
  chosen.map (fun vs =>
    let final := processScenes dupBump env quality_mode samples_per_scene
      max_frames 0 vs (initState stats0)
    ⟨final.selected, final.rejected, vs.length, final.stats, quality_mode⟩)

/-- The main variant's initial `stats["rejected"]` dict (lines 220-221). -/
def stats0Main : Stats :=
  [(Reason.black, 0), (Reason.blurry, 0), (Reason.duplicate, 0),
   (Reason.text_only, 0), (Reason.solid_color, 0), (Reason.low_contrast, 0),
   (Reason.other, 0)]

/-- The main variant's `stats["rejected"]["duplicate"] += 1` (line 301). -/
def dupBumpMain (s : Stats) : Stats := statsIncr s Reason.duplicate

/-- The Convex variant's
`stats["rejected"]["duplicate"] = stats["rejected"].get("duplicate", 0) + 1`
(modal_fix.py line 325). -/
def dupBumpConvex (s : Stats) : Stats := statsBump s Reason.duplicate

/-- `extract_smart_keyframes` of `src/modal_video_processor.py`
(the Supabase variant). -/
def extract_smart_keyframes (env : VideoCap) (scenes : List Scene)
    (max_frames samples_per_scene : ℕ) (min_scene_duration : ℚ)
    (quality_mode : String) : Except String ExtractResult :=
  extractCore stats0Main dupBumpMain env scenes max_frames samples_per_scene
    min_scene_duration quality_mode

/-- `extract_smart_keyframes` of `src/.archive/scripts/modal_fix.py`
(the Convex variant): identical code except for the empty initial histogram
and the duplicate-count increment style. -/
def extract_smart_keyframes_convex (env : VideoCap) (scenes : List Scene)
    (max_frames samples_per_scene : ℕ) (min_scene_duration : ℚ)
    (quality_mode : String) : Except String ExtractResult :=
  extractCore [] dupBumpConvex env scenes max_frames samples_per_scene
    min_scene_duration quality_mode

deriving instance DecidableEq for Except

/-- A frame that passes every quality check under every shipped preset:
no black pixels, variance 1000, half the pixels on edges, the given
Laplacian variance, 200 populated histogram bins, and the given hash. -/
def goodFrame (lap : ℚ) (hash : Option Fingerprint) : Frame :=
  ⟨true, some 0, some 1000, some (1/2), some lap, some 200, hash⟩

/-- A 64-bit perceptual hash with no bit set. -/
def hash0 : Fingerprint := List.replicate 64 false

/-- A 64-bit hash at Hamming distance 3 from `hash0`. -/
def hashD3 : Fingerprint := List.replicate 3 true ++ List.replicate 61 false

/-- A 64-bit hash at Hamming distance 9 from `hash0`. -/
def hashD9 : Fingerprint := List.replicate 9 true ++ List.replicate 55 false

/-- Two shots of ten seconds each. -/
def scenesAB : List Scene := [⟨0, 10⟩, ⟨10, 20⟩]

/-- A 1 fps video whose two sampled frames carry hashes at distance 3. -/
def envD3 : VideoCap :=
  ⟨1, 30, fun n => if n = 2 then some (goodFrame 100 (some hash0))
    else if n = 12 then some (goodFrame 100 (some hashD3)) else none⟩

/-- A 1 fps video whose two sampled frames carry hashes at distance 9. -/
def envD9 : VideoCap :=
  ⟨1, 30, fun n => if n = 2 then some (goodFrame 100 (some hash0))
    else if n = 12 then some (goodFrame 100 (some hashD9)) else none⟩

/-- A 1 fps video whose single sampled frame has a failed (`None`) phash. -/
def envPhashNone : VideoCap :=
  ⟨1, 30, fun n => if n = 2 then some (goodFrame 100 none) else none⟩

/-- A 1 fps video with two decodable good frames of different sharpness
(50 at frame 2, 80 at frame 5). -/
def envSharp : VideoCap :=
  ⟨1, 30, fun n => if n = 2 then some (goodFrame 50 (some hash0))
    else if n = 5 then some (goodFrame 80 (some hashD3)) else none⟩

/-- A 4 fps video on which every frame decodes to a good frame. -/
def env45 : VideoCap := ⟨4, 100, fun _ => some (goodFrame 100 (some hash0))⟩

/-- A readable frame whose black-ratio computation raises (check 2). -/
def frameBlackErr : Frame := ⟨true, none, some 1000, some (1/2), some 100, some 200, none⟩

/-- A readable frame passing checks 2-5 whose histogram computation raises
(check 6). -/
def frameHistErr : Frame := ⟨true, some 0, some 1000, some (1/2), some 100, none, none⟩

/-- A placeholder result used to state closed witnesses. -/
def emptyResult : ExtractResult := ⟨[], [], 0, [], ""⟩

/-- Projection on the run state shared by the two pipeline variants:
everything except the `stats` histogram. -/
def ExtractState.core (st : ExtractState) :
    List FsPath × List SelEntry × List RejEntry × List (Option Fingerprint) :=
  (st.files, st.selected, st.rejected, st.seen)

/-- Projection on the sample-loop accumulator: everything except `stats`. -/
def ShotAcc.core (a : ShotAcc) :
    List FsPath × ℚ × Option FsPath × Option Frame × List RejEntry :=
  (a.files, a.bestSharp, a.bestPath, a.bestFrame, a.rejScene)

theorem is_bad_checks_mono (p q : Preset) (f : Frame)
    (hb : p.black_threshold ≤ q.black_threshold)
    (hv : q.variance_threshold ≤ p.variance_threshold)
    (he : q.edge_threshold ≤ p.edge_threshold)
    (hbl : q.blur_threshold ≤ p.blur_threshold)
    (hc : q.contrast_threshold ≤ p.contrast_threshold)
    (h : (is_bad_checks p f).1 = false) :
    (is_bad_checks q f).1 = false := by
  obtain ⟨rd, bfc, v, ef, lv, hbins, ph⟩ := f
  unfold is_bad_checks at h ⊢
  cases rd
  · simp at h
  · rw [if_neg (by simp)] at h
    rw [if_neg (by simp)]
    cases bfc with
    | none => rfl
    | some br =>
      dsimp only at h ⊢
      by_cases h2 : br > p.black_threshold
      · rw [if_pos h2] at h; simp at h
      · rw [if_neg h2] at h
        rw [if_neg (by intro hq; exact h2 (by linarith))]
        cases v with
        | none => rfl
        | some vv =>
          dsimp only at h ⊢
          by_cases h3 : vv < p.variance_threshold
          · rw [if_pos h3] at h; simp at h
          · rw [if_neg h3] at h
            rw [if_neg (by intro hq; exact h3 (by linarith))]
            cases ef with
            | none => rfl
            | some er =>
              dsimp only at h ⊢
              by_cases h4 : er < p.edge_threshold ∧ vv < 500
              · rw [if_pos h4] at h; simp at h
              · rw [if_neg h4] at h
                rw [if_neg (fun hq => h4 ⟨by linarith [hq.1], hq.2⟩)]
                cases lv with
                | none => rfl
                | some sh =>
                  dsimp only at h ⊢
                  by_cases h5 : sh < p.blur_threshold
                  · rw [if_pos h5] at h; simp at h
                  · rw [if_neg h5] at h
                    rw [if_neg (by intro hq; exact h5 (by linarith))]
                    cases hbins with
                    | none => rfl
                    | some nb =>
                      dsimp only at h ⊢
                      by_cases h6 : (nb : ℚ) < p.contrast_threshold
                      · rw [if_pos h6] at h; simp at h
                      · rw [if_neg h6] at h
                        rw [if_neg (by intro hq; exact h6 (by linarith))]

/-- C6: acceptance by the quality gate is monotone across the shipped
presets: a frame the gate accepts under "strict" is accepted under "medium",
and one accepted under "medium" is accepted under "high" (with the six
shipped threshold values of each preset). -/
theorem c6_profile_acceptance_monotone (f : Frame) :
    ((is_bad_frame f "strict").1 = false → (is_bad_frame f "medium").1 = false)
    ∧ ((is_bad_frame f "medium").1 = false → (is_bad_frame f "high").1 = false) := by
  have hs : qualityPreset "strict" = strictPreset := rfl
  have hm : qualityPreset "medium" = mediumPreset := rfl
  have hh : qualityPreset "high" = highPreset := rfl
  constructor
  · intro h
    unfold is_bad_frame at h ⊢
    rw [hs] at h
    rw [hm]
    exact is_bad_checks_mono strictPreset mediumPreset f
      (by norm_num [strictPreset, mediumPreset])
      (by norm_num [strictPreset, mediumPreset])
      (by norm_num [strictPreset, mediumPreset])
      (by norm_num [strictPreset, mediumPreset])
      (by norm_num [strictPreset, mediumPreset]) h
  · intro h
    unfold is_bad_frame at h ⊢
    rw [hm] at h
    rw [hh]
    exact is_bad_checks_mono mediumPreset highPreset f
      (by norm_num [mediumPreset, highPreset])
      (by norm_num [mediumPreset, highPreset])
      (by norm_num [mediumPreset, highPreset])
      (by norm_num [mediumPreset, highPreset])
      (by norm_num [mediumPreset, highPreset]) h


/-- C4: the quality gate fails open.  Whenever the gate reports
`check_error` the frame is kept (`is_bad = false`) and check 1 had already
established readability; and for every readable frame, an exception raised at
the point each of checks 2-6 is actually reached (modelled by the measured
value being `none`) yields exactly `(false, check_error)`, so the frame is
never routed to rejected for that exception. -/
theorem c4_quality_gate_fail_open :
    (∀ (f : Frame) (qm : String),
       (is_bad_frame f qm).2 = Reason.check_error →
       (is_bad_frame f qm).1 = false ∧ f.readable = true)
    ∧ (∀ (f : Frame) (qm : String), f.readable = true → f.blackFrac = none →
        is_bad_frame f qm = (false, Reason.check_error))
    ∧ (∀ (f : Frame) (qm : String) (br : ℚ), f.readable = true →
        f.blackFrac = some br → ¬ br > (qualityPreset qm).black_threshold →
        f.variance = none → is_bad_frame f qm = (false, Reason.check_error))
    ∧ (∀ (f : Frame) (qm : String) (br v : ℚ), f.readable = true →
        f.blackFrac = some br → ¬ br > (qualityPreset qm).black_threshold →
        f.variance = some v → ¬ v < (qualityPreset qm).variance_threshold →
        f.edgeFrac = none → is_bad_frame f qm = (false, Reason.check_error))
    ∧ (∀ (f : Frame) (qm : String) (br v er : ℚ), f.readable = true →
        f.blackFrac = some br → ¬ br > (qualityPreset qm).black_threshold →
        f.variance = some v → ¬ v < (qualityPreset qm).variance_threshold →
        f.edgeFrac = some er →
        ¬ (er < (qualityPreset qm).edge_threshold ∧ v < 500) →
        f.lapVar = none → is_bad_frame f qm = (false, Reason.check_error))
    ∧ (∀ (f : Frame) (qm : String) (br v er sh : ℚ), f.readable = true →
        f.blackFrac = some br → ¬ br > (qualityPreset qm).black_threshold →
        f.variance = some v → ¬ v < (qualityPreset qm).variance_threshold →
        f.edgeFrac = some er →
        ¬ (er < (qualityPreset qm).edge_threshold ∧ v < 500) →
        f.lapVar = some sh → ¬ sh < (qualityPreset qm).blur_threshold →
        f.histBins = none → is_bad_frame f qm = (false, Reason.check_error)) := by
  refine ⟨?_, ?_, ?_, ?_, ?_, ?_⟩
  · intro f qm h
    obtain ⟨rd, bfc, v, ef, lv, hbins, ph⟩ := f
    unfold is_bad_frame is_bad_checks at h ⊢
    cases rd
    · simp at h
    · refine ⟨?_, rfl⟩
      rw [if_neg (by simp)] at h ⊢
      cases bfc with
      | none => rfl
      | some br =>
        dsimp only at h ⊢
        by_cases h2 : br > (qualityPreset qm).black_threshold
        · rw [if_pos h2] at h; simp at h
        · rw [if_neg h2] at h ⊢
          cases v with
          | none => rfl
          | some vv =>
            dsimp only at h ⊢
            by_cases h3 : vv < (qualityPreset qm).variance_threshold
            · rw [if_pos h3] at h; simp at h
            · rw [if_neg h3] at h ⊢
              cases ef with
              | none => rfl
              | some er =>
                dsimp only at h ⊢
                by_cases h4 : er < (qualityPreset qm).edge_threshold ∧ vv < 500
                · rw [if_pos h4] at h; simp at h
                · rw [if_neg h4] at h ⊢
                  cases lv with
                  | none => rfl
                  | some sh =>
                    dsimp only at h ⊢
                    by_cases h5 : sh < (qualityPreset qm).blur_threshold
                    · rw [if_pos h5] at h; simp at h
                    · rw [if_neg h5] at h ⊢
                      cases hbins with
                      | none => rfl
                      | some nb =>
                        dsimp only at h ⊢
                        by_cases h6 : (nb : ℚ) < (qualityPreset qm).contrast_threshold
                        · rw [if_pos h6] at h; simp at h
                        · rw [if_neg h6] at h; simp at h
  · intro f qm h1 h2
    unfold is_bad_frame is_bad_checks
    rw [h1, h2]
    simp
  · intro f qm br h1 h2 h3 h4
    unfold is_bad_frame is_bad_checks
    rw [h1, h2, h4]
    simp [h3]
  · intro f qm br v h1 h2 h3 h4 h5 h6
    unfold is_bad_frame is_bad_checks
    rw [h1, h2, h4, h6]
    simp [h3, h5]
  · intro f qm br v er h1 h2 h3 h4 h5 h6 h7 h8
    unfold is_bad_frame is_bad_checks
    rw [h1, h2, h4, h6, h8]
    simp [h3, h5, h7]
  · intro f qm br v er sh h1 h2 h3 h4 h5 h6 h7 h8 h9 h10
    unfold is_bad_frame is_bad_checks
    rw [h1, h2, h4, h6, h8, h10]
    simp [h3, h5, h7, h9]


attribute [local semireducible] Rat.add Rat.mul Rat.sub Rat.inv Rat.ofScientific

theorem sampleStep_core_eq (env : VideoCap) (qm : String) (i : ℕ) (sc : Scene)
    (a1 a2 : ShotAcc) (t : ℚ) (h : a1.core = a2.core) :
    (sampleStep env qm i sc a1 t).core = (sampleStep env qm i sc a2 t).core := by
  obtain ⟨f1, b1, p1, fr1, r1, s1⟩ := a1
  obtain ⟨f2, b2, p2, fr2, r2, s2⟩ := a2
  simp only [ShotAcc.core, Prod.mk.injEq] at h
  obtain ⟨rfl, rfl, rfl, rfl, rfl⟩ := h
  unfold sampleStep
  dsimp only
  by_cases hge : (env.totalFrames : ℤ) ≤ pyInt (t * env.fps)
  · rw [if_pos hge, if_pos hge]; rfl
  · rw [if_neg hge, if_neg hge]
    rcases hr : env.read (pyInt (t * env.fps)) with _ | fr
    · rfl
    · dsimp only
      by_cases hbad : (is_bad_frame fr qm).1
      · simp [hbad, ShotAcc.core]
      · simp only [hbad, if_false, Bool.false_eq_true]
        by_cases hsh : b1 < measure_sharpness fr
        · cases p1 <;> simp [hsh, ShotAcc.core]
        · simp [hsh, ShotAcc.core]

theorem foldl_sampleStep_core_eq (env : VideoCap) (qm : String) (i : ℕ)
    (sc : Scene) (pts : List ℚ) :
    ∀ (a1 a2 : ShotAcc), a1.core = a2.core →
    (pts.foldl (sampleStep env qm i sc) a1).core
      = (pts.foldl (sampleStep env qm i sc) a2).core := by
  induction pts with
  | nil => intro a1 a2 h; exact h
  | cons t ts ih =>
    intro a1 a2 h
    exact ih _ _ (sampleStep_core_eq env qm i sc a1 a2 t h)

theorem finishShot_core_eq (b1 b2 : Stats → Stats) (pthr : ℕ) (sc : Scene)
    (st1 st2 : ExtractState) (h : st1.core = st2.core) (F : List FsPath)
    (BS : ℚ) (BP : Option FsPath) (BF : Option Frame) (RJ : List RejEntry)
    (s1 s2 : Stats) :
    (finishShot b1 pthr sc st1 F BS BP BF RJ s1).core
      = (finishShot b2 pthr sc st2 F BS BP BF RJ s2).core := by
  obtain ⟨fl1, se1, re1, sn1, ss1⟩ := st1
  obtain ⟨fl2, se2, re2, sn2, ss2⟩ := st2
  simp only [ExtractState.core, Prod.mk.injEq] at h
  obtain ⟨rfl, rfl, rfl, rfl⟩ := h
  unfold finishShot
  cases BP <;> cases BF <;> dsimp only
  · rfl
  · rfl
  · rfl
  · rename_i bp bf
    by_cases hbs : (0:ℚ) < BS
    · simp only [hbs, if_true]
      by_cases hdup : is_duplicate (compute_phash bf) sn1 pthr
      · simp [hdup, ExtractState.core]
      · simp [hdup, ExtractState.core]
    · simp [hbs, ExtractState.core]

theorem processShot_core_eq (b1 b2 : Stats → Stats) (env : VideoCap)
    (qm : String) (sps : ℕ) (i : ℕ) (sc : Scene) (st1 st2 : ExtractState)
    (h : st1.core = st2.core) :
    (processShot b1 env qm sps i sc st1).core
      = (processShot b2 env qm sps i sc st2).core := by
  unfold processShot
  dsimp only
  by_cases hcnt : pyInt ((sc.stop - sc.start) * env.fps) < 3
  · rw [if_pos hcnt, if_pos hcnt]; exact h
  · rw [if_neg hcnt, if_neg hcnt]
    have hfiles : st1.files = st2.files := congrArg (fun c => c.1) h
    have hacc := foldl_sampleStep_core_eq env qm i sc
      (samplePoints sc.start sc.stop sps)
      ⟨st1.files, 0, none, none, [], st1.stats⟩
      ⟨st2.files, 0, none, none, [], st2.stats⟩
      (by simp [ShotAcc.core, hfiles])
    have h1 := congrArg (fun c => c.1) hacc
    have h2 := congrArg (fun c => c.2.1) hacc
    have h3 := congrArg (fun c => c.2.2.1) hacc
    have h4 := congrArg (fun c => c.2.2.2.1) hacc
    have h5 := congrArg (fun c => c.2.2.2.2) hacc
    dsimp only [ShotAcc.core] at h1 h2 h3 h4 h5
    rw [h1, h2, h3, h4, h5]
    exact finishShot_core_eq b1 b2 _ sc st1 st2 h _ _ _ _ _ _ _

theorem processScenes_core_eq (b1 b2 : Stats → Stats) (env : VideoCap)
    (qm : String) (sps mf : ℕ) (scs : List Scene) :
    ∀ (i : ℕ) (st1 st2 : ExtractState), st1.core = st2.core →
    (processScenes b1 env qm sps mf i scs st1).core
      = (processScenes b2 env qm sps mf i scs st2).core := by
  induction scs with
  | nil => intro i st1 st2 h; exact h
  | cons sc rest ih =>
    intro i st1 st2 h
    simp only [processScenes]
    have hshot := processShot_core_eq b1 b2 env qm sps i sc st1 st2 h
    have hsel : (processShot b1 env qm sps i sc st1).selected
        = (processShot b2 env qm sps i sc st2).selected :=
      congrArg (fun c => c.2.1) hshot
    by_cases hif : mf ≤ (processShot b2 env qm sps i sc st2).selected.length
    · rw [if_pos hif, if_pos (by rw [hsel]; exact hif)]
      exact hshot
    · rw [if_neg hif, if_neg (by rw [hsel]; exact hif)]
      exact ih _ _ _ hshot

theorem finishShot_selected_cases (b : Stats → Stats) (pthr : ℕ) (sc : Scene)
    (st : ExtractState) (F : List FsPath) (BS : ℚ) (BP : Option FsPath)
    (BF : Option Frame) (RJ : List RejEntry) (S : Stats) :
    (finishShot b pthr sc st F BS BP BF RJ S).selected = st.selected ∨
    ∃ e, (finishShot b pthr sc st F BS BP BF RJ S).selected = st.selected ++ [e] := by
  unfold finishShot
  cases BP <;> cases BF <;> dsimp only
  · left; rfl
  · left; rfl
  · left; rfl
  · rename_i bp bf
    by_cases hbs : (0:ℚ) < BS
    · simp only [hbs, if_true]
      by_cases hdup : is_duplicate (compute_phash bf) st.seen pthr
      · simp only [hdup, if_true]
        exact Or.inl trivial
      · simp only [hdup, if_false, Bool.false_eq_true]
        right; exact ⟨_, rfl⟩
    · simp only [hbs, if_false]
      exact Or.inl trivial

theorem processShot_selected_le (b : Stats → Stats) (env : VideoCap)
    (qm : String) (sps i : ℕ) (sc : Scene) (st : ExtractState) :
    (processShot b env qm sps i sc st).selected.length ≤ st.selected.length + 1 := by
  unfold processShot
  dsimp only
  by_cases hcnt : pyInt ((sc.stop - sc.start) * env.fps) < 3
  · rw [if_pos hcnt]; omega
  · rw [if_neg hcnt]
    rcases finishShot_selected_cases b (qualityPreset qm).phash_threshold sc st
      _ _ _ _ _ _ with hh | ⟨e, hh⟩ <;> rw [hh] <;> simp

theorem processScenes_selected_le (b : Stats → Stats) (env : VideoCap)
    (qm : String) (sps mf : ℕ) (scs : List Scene) :
    ∀ (i : ℕ) (st : ExtractState), st.selected.length < mf →
    (processScenes b env qm sps mf i scs st).selected.length ≤ mf := by
  induction scs with
  | nil => intro i st h; exact Nat.le_of_lt h
  | cons sc rest ih =>
    intro i st h
    simp only [processScenes]
    have hle := processShot_selected_le b env qm sps i sc st
    by_cases hif : mf ≤ (processShot b env qm sps i sc st).selected.length
    · rw [if_pos hif]; omega
    · rw [if_neg hif]; exact ih _ _ (by omega)

theorem is_bad_checks_reason_ne (p : Preset) (f : Frame) :
    (is_bad_checks p f).2 ≠ Reason.not_sharpest := by
  unfold is_bad_checks
  repeat' split
  all_goals simp

theorem is_bad_frame_reason_ne (f : Frame) (qm : String) :
    (is_bad_frame f qm).2 ≠ Reason.not_sharpest :=
  is_bad_checks_reason_ne (qualityPreset qm) f

theorem statsGet_map_incr (s : Stats) (r r' : Reason) (h : r ≠ r') :
    statsGet (s.map (fun p => if p.1 = r then (p.1, p.2 + 1) else p)) r'
      = statsGet s r' := by
  induction s with
  | nil => rfl
  | cons p rest ih =>
    simp only [List.map_cons, statsGet]
    by_cases hp : p.1 = r
    · rw [if_pos hp]
      simp only [statsGet]
      rw [if_neg (by rw [hp]; exact h), if_neg (by rw [hp]; exact h)]
      exact ih
    · rw [if_neg hp]
      by_cases hp2 : p.1 = r'
      · rw [if_pos hp2, if_pos hp2]
      · rw [if_neg hp2, if_neg hp2]
        exact ih

theorem statsGet_append_new (s : Stats) (r r' : Reason) (h : r ≠ r') :
    statsGet (s ++ [(r, 1)]) r' = statsGet s r' := by
  induction s with
  | nil => simp [statsGet, if_neg h]
  | cons p rest ih =>
    simp only [List.cons_append, statsGet]
    by_cases hp : p.1 = r'
    · rw [if_pos hp, if_pos hp]
    · rw [if_neg hp, if_neg hp]
      exact ih

theorem statsGet_statsBump_ne (s : Stats) (r r' : Reason) (h : r ≠ r') :
    statsGet (statsBump s r) r' = statsGet s r' := by
  unfold statsBump
  rcases hg : statsGet s r with _ | n <;> simp only [hg]
  · exact statsGet_append_new s r r' h
  · exact statsGet_map_incr s r r' h

theorem statsGet_statsIncr_ne (s : Stats) (r r' : Reason) (h : r ≠ r') :
    statsGet (statsIncr s r) r' = statsGet s r' :=
  statsGet_map_incr s r r' h

theorem sampleStep_stats_ns (env : VideoCap) (qm : String) (i : ℕ) (sc : Scene)
    (a : ShotAcc) (t : ℚ)
    (h : statsGet a.stats Reason.not_sharpest = none) :
    statsGet (sampleStep env qm i sc a t).stats Reason.not_sharpest = none := by
  unfold sampleStep
  dsimp only
  by_cases hge : (env.totalFrames : ℤ) ≤ pyInt (t * env.fps)
  · rw [if_pos hge]; exact h
  · rw [if_neg hge]
    rcases hr : env.read (pyInt (t * env.fps)) with _ | fr
    · exact h
    · dsimp only
      by_cases hbad : (is_bad_frame fr qm).1 = true
      · simp only [hbad, if_true]
        rw [statsGet_statsBump_ne _ _ _ (is_bad_frame_reason_ne fr qm)]
        exact h
      · simp only [hbad, if_false, Bool.false_eq_true]
        by_cases hsh : a.bestSharp < measure_sharpness fr
        · simp only [hsh, if_true]; exact h
        · simp only [hsh, if_false]; exact h

theorem foldl_sampleStep_stats_ns (env : VideoCap) (qm : String) (i : ℕ)
    (sc : Scene) (pts : List ℚ) :
    ∀ a : ShotAcc, statsGet a.stats Reason.not_sharpest = none →
    statsGet ((pts.foldl (sampleStep env qm i sc) a)).stats
      Reason.not_sharpest = none := by
  induction pts with
  | nil => intro a h; exact h
  | cons t ts ih =>
    intro a h
    exact ih _ (sampleStep_stats_ns env qm i sc a t h)

theorem finishShot_stats_cases (b : Stats → Stats) (pthr : ℕ) (sc : Scene)
    (st : ExtractState) (F : List FsPath) (BS : ℚ) (BP : Option FsPath)
    (BF : Option Frame) (RJ : List RejEntry) (S : Stats) :
    (finishShot b pthr sc st F BS BP BF RJ S).stats = S ∨
    (finishShot b pthr sc st F BS BP BF RJ S).stats = b S := by
  unfold finishShot
  cases BP <;> cases BF <;> dsimp only
  · left; rfl
  · left; rfl
  · left; rfl
  · rename_i bp bf
    by_cases hbs : (0:ℚ) < BS
    · simp only [hbs, if_true]
      by_cases hdup : is_duplicate (compute_phash bf) st.seen pthr
      · simp only [hdup, if_true]
        exact Or.inr trivial
      · simp only [hdup, if_false, Bool.false_eq_true]; left; trivial
    · simp only [hbs, if_false]; left; trivial

theorem processShot_stats_ns (b : Stats → Stats)
    (hb : ∀ σ, statsGet σ Reason.not_sharpest = none →
      statsGet (b σ) Reason.not_sharpest = none)
    (env : VideoCap) (qm : String) (sps i : ℕ) (sc : Scene)
    (st : ExtractState) (h : statsGet st.stats Reason.not_sharpest = none) :
    statsGet (processShot b env qm sps i sc st).stats Reason.not_sharpest
      = none := by
  unfold processShot
  dsimp only
  by_cases hcnt : pyInt ((sc.stop - sc.start) * env.fps) < 3
  · rw [if_pos hcnt]; exact h
  · rw [if_neg hcnt]
    have hacc := foldl_sampleStep_stats_ns env qm i sc
      (samplePoints sc.start sc.stop sps) ⟨st.files, 0, none, none, [], st.stats⟩ h
    rcases finishShot_stats_cases b (qualityPreset qm).phash_threshold sc st
      _ _ _ _ _ _ with hh | hh <;> rw [hh]
    · exact hacc
    · exact hb _ hacc

theorem processScenes_stats_ns (b : Stats → Stats)
    (hb : ∀ σ, statsGet σ Reason.not_sharpest = none →
      statsGet (b σ) Reason.not_sharpest = none)
    (env : VideoCap) (qm : String) (sps mf : ℕ) (scs : List Scene) :
    ∀ (i : ℕ) (st : ExtractState),
    statsGet st.stats Reason.not_sharpest = none →
    statsGet (processScenes b env qm sps mf i scs st).stats Reason.not_sharpest
      = none := by
  induction scs with
  | nil => intro i st h; exact h
  | cons sc rest ih =>
    intro i st h
    simp only [processScenes]
    have hshot := processShot_stats_ns b hb env qm sps i sc st h
    by_cases hif : mf ≤ (processShot b env qm sps i sc st).selected.length
    · rw [if_pos hif]; exact hshot
    · rw [if_neg hif]; exact ih _ _ hshot

theorem dupBumpMain_stats_ns (s : Stats)
    (h : statsGet s Reason.not_sharpest = none) :
    statsGet (dupBumpMain s) Reason.not_sharpest = none := by
  unfold dupBumpMain
  rw [statsGet_statsIncr_ne s Reason.duplicate Reason.not_sharpest (by decide)]
  exact h

/-- C8: the Convex and Supabase variants of `extract_smart_keyframes` compute
the same algorithm: on every input they produce the same selected/rejected
partition with the same per-frame labels (they differ only in the stats
histogram representation and the storage/notification back-ends outside this
function). -/
theorem c8_convex_supabase_same_algorithm (env : VideoCap) (scenes : List Scene)
    (max_frames samples_per_scene : ℕ) (min_scene_duration : ℚ)
    (quality_mode : String) :
    (extract_smart_keyframes env scenes max_frames samples_per_scene
        min_scene_duration quality_mode).map (fun r => (r.selected, r.rejected))
      = (extract_smart_keyframes_convex env scenes max_frames samples_per_scene
        min_scene_duration quality_mode).map (fun r => (r.selected, r.rejected)) := by
  unfold extract_smart_keyframes extract_smart_keyframes_convex extractCore
  dsimp only
  by_cases h1 : (scenes.filter
      (fun s => decide (min_scene_duration ≤ s.stop - s.start))).length
      > max_frames * 2
  · rw [if_pos h1]
    by_cases h2 : max_frames = 0
    · rw [if_pos h2]; rfl
    · rw [if_neg h2]
      simp only [Except.map]
      have hc := processScenes_core_eq dupBumpMain dupBumpConvex env quality_mode
        samples_per_scene max_frames
        (strideSelect (scenes.filter
            (fun s => decide (min_scene_duration ≤ s.stop - s.start)))
          ((scenes.filter
            (fun s => decide (min_scene_duration ≤ s.stop - s.start))).length
            / max_frames))
        0 (initState stats0Main) (initState []) rfl
      have hsel := congrArg (fun c => c.2.1) hc
      have hrej := congrArg (fun c => c.2.2.1) hc
      dsimp only [ExtractState.core] at hsel hrej
      rw [hsel, hrej]
  · rw [if_neg h1]
    simp only [Except.map]
    have hc := processScenes_core_eq dupBumpMain dupBumpConvex env quality_mode
      samples_per_scene max_frames
      (scenes.filter (fun s => decide (min_scene_duration ≤ s.stop - s.start)))
      0 (initState stats0Main) (initState []) rfl
    have hsel := congrArg (fun c => c.2.1) hc
    have hrej := congrArg (fun c => c.2.2.1) hc
    dsimp only [ExtractState.core] at hsel hrej
    rw [hsel, hrej]

/-- C1: for every input, an extraction that returns a result satisfies
`len(selected) <= max_frames`; and once a shot pushes `len(selected)` to the
cap, the scene loop returns right after that shot, so every remaining shot
contributes nothing (the cap never interrupts the shot being processed, it
only prevents further shots from being visited). -/
theorem c1_global_frame_cap :
    (∀ (env : VideoCap) (scenes : List Scene)
       (max_frames samples_per_scene : ℕ) (min_scene_duration : ℚ)
       (quality_mode : String) (r : ExtractResult),
       extract_smart_keyframes env scenes max_frames samples_per_scene
         min_scene_duration quality_mode = Except.ok r →
       r.selected.length ≤ max_frames)
    ∧ (∀ (env : VideoCap) (quality_mode : String)
         (samples_per_scene max_frames scene_idx : ℕ) (sc : Scene)
         (rest : List Scene) (st : ExtractState),
         max_frames ≤ (processShot dupBumpMain env quality_mode
           samples_per_scene scene_idx sc st).selected.length →
         processScenes dupBumpMain env quality_mode samples_per_scene
             max_frames scene_idx (sc :: rest) st
           = processShot dupBumpMain env quality_mode samples_per_scene
             scene_idx sc st) := by
  constructor
  · intro env scenes mf sps msd qm r h
    unfold extract_smart_keyframes extractCore at h
    dsimp only at h
    by_cases h1 : (scenes.filter
        (fun s => decide (msd ≤ s.stop - s.start))).length > mf * 2
    · rw [if_pos h1] at h
      by_cases h2 : mf = 0
      · rw [if_pos h2] at h
        simp [Except.map] at h
      · rw [if_neg h2] at h
        simp only [Except.map, Except.ok.injEq] at h
        subst h
        exact processScenes_selected_le dupBumpMain env qm sps mf _ 0 _
          (Nat.pos_of_ne_zero h2)
    · rw [if_neg h1] at h
      simp only [Except.map, Except.ok.injEq] at h
      subst h
      by_cases h2 : mf = 0
      · subst h2
        have hlen : (scenes.filter
            (fun s => decide (msd ≤ s.stop - s.start))).length = 0 := by omega
        rw [List.length_eq_zero.mp hlen]
        simp [processScenes, initState]
      · exact processScenes_selected_le dupBumpMain env qm sps mf _ 0 _
          (Nat.pos_of_ne_zero h2)
  · intro env qm sps mf i sc rest st h
    simp only [processScenes]
    rw [if_pos h]

/-- C1 witness: a concrete run with `max_frames = 1` on two selectable shots
selects exactly one frame, and the loop equation stops after the first shot. -/
theorem c1_global_frame_cap_witness :
    ((extract_smart_keyframes envD9 scenesAB 1 1 (3/10) "medium").toOption.getD
        emptyResult).selected.length ≤ 1 ∧
    processScenes dupBumpMain envD9 "medium" 1 1 0
        (Scene.mk 0 10 :: [Scene.mk 10 20]) (initState stats0Main)
      = processShot dupBumpMain envD9 "medium" 1 0 (Scene.mk 0 10)
        (initState stats0Main) :=
  ⟨c1_global_frame_cap.1 envD9 scenesAB 1 1 (3/10) "medium" _ (by decide),
   c1_global_frame_cap.2 envD9 "medium" 1 1 0 (Scene.mk 0 10) [Scene.mk 10 20]
     (initState stats0Main) (by decide)⟩

/-- C9: a shot whose computed frame count `int((end - start) * fps)` is below
3 is skipped entirely — the state is returned unchanged, so it contributes no
candidates, no selected frame and no rejected entries; the concrete second
part shows a 0.5-second shot in a 4 fps video passing the 0.3 s
minimum-duration filter (it is counted in `total_scenes`) yet contributing
nothing. -/
theorem c9_short_shot_skipped :
    (∀ (dupBump : Stats → Stats) (env : VideoCap) (quality_mode : String)
       (samples_per_scene scene_idx : ℕ) (sc : Scene) (st : ExtractState),
       pyInt ((sc.stop - sc.start) * env.fps) < 3 →
       processShot dupBump env quality_mode samples_per_scene scene_idx sc st
         = st)
    ∧ (extract_smart_keyframes env45 [⟨0, 1/2⟩] 50 3 (3/10) "medium").toOption.map
        (fun r => (r.total_scenes, r.selected.length, r.rejected.length))
      = some (1, 0, 0) := by
  constructor
  · intro b env qm sps i sc st h
    unfold processShot
    dsimp only
    rw [if_pos h]
  · decide

/-- C9 witness: the 0.5-second, 4 fps shot has frame count 2 < 3, meets the
minimum duration, and leaves the run state untouched. -/
theorem c9_short_shot_skipped_witness :
    pyInt (((Scene.mk 0 (1/2)).stop - (Scene.mk 0 (1/2)).start) * env45.fps) < 3 ∧
    (3 : ℚ)/10 ≤ (Scene.mk 0 (1/2)).stop - (Scene.mk 0 (1/2)).start ∧
    processShot dupBumpMain env45 "medium" 3 0 (Scene.mk 0 (1/2))
        (initState stats0Main) = initState stats0Main :=
  ⟨by decide, by decide,
   c9_short_shot_skipped.1 dupBumpMain env45 "medium" 3 0 (Scene.mk 0 (1/2))
     (initState stats0Main) (by decide)⟩

/-- C10: frames rejected as `not_sharpest` are appended to the rejected list
but never counted in the `stats["rejected"]` histogram: for every input the
histogram has no `not_sharpest` key, and on a concrete input the histogram
total (0) is strictly below the rejected-list length (1). -/
theorem c10_not_sharpest_never_counted :
    (∀ (env : VideoCap) (scenes : List Scene)
       (max_frames samples_per_scene : ℕ) (min_scene_duration : ℚ)
       (quality_mode : String),
       ((extract_smart_keyframes env scenes max_frames samples_per_scene
           min_scene_duration quality_mode).toOption.all
         (fun r => (statsGet r.statsRejected Reason.not_sharpest).isNone))
        = true)
    ∧ (extract_smart_keyframes envSharp [⟨0, 10⟩] 50 2 (3/10) "medium").toOption.map
        (fun r => (statsTotal r.statsRejected, r.rejected.length,
          r.rejected.map (fun e => e.reason)))
      = some (0, 1, [Reason.not_sharpest]) := by
  constructor
  · intro env scenes mf sps msd qm
    unfold extract_smart_keyframes extractCore
    dsimp only
    by_cases h1 : (scenes.filter
        (fun s => decide (msd ≤ s.stop - s.start))).length > mf * 2
    · rw [if_pos h1]
      by_cases h2 : mf = 0
      · rw [if_pos h2]; rfl
      · rw [if_neg h2]
        simp only [Except.map, Except.toOption, Option.all]
        rw [processScenes_stats_ns dupBumpMain dupBumpMain_stats_ns env qm sps
          mf _ 0 (initState stats0Main) (by decide)]
        rfl
    · rw [if_neg h1]
      simp only [Except.map, Except.toOption, Option.all]
      rw [processScenes_stats_ns dupBumpMain dupBumpMain_stats_ns env qm sps
        mf _ 0 (initState stats0Main) (by decide)]
      rfl
  · decide

/-- C2 counterexample: a video on which the scene detector raises (it cannot
be decoded) produces exactly the same `detect_scenes` outcome as a video that
decodes but has no content changes — the two cases are not distinct at the
interface, and no `SegmentationError` exists in the code. -/
theorem c2_counterexample :
    detect_scenes (Except.error "could not decode video")
      = detect_scenes (Except.ok []) := rfl

/-- C2 amended: `detect_scenes` never fails; every detector exception
(including decode failure) is caught and yields the empty shot list, the same
value returned when no content changes are found, and the caller maps both to
the one terminal failure string "No scenes". -/
theorem c2_empty_on_any_detector_outcome :
    (∀ msg : String, detect_scenes (Except.error msg) = [])
    ∧ detect_scenes (Except.ok []) = []
    ∧ (∀ msg : String,
        sceneCheckFailure (detect_scenes (Except.error msg)) = some "No scenes")
    ∧ sceneCheckFailure (detect_scenes (Except.ok [])) = some "No scenes" :=
  ⟨fun _ => rfl, rfl, fun _ => rfl, rfl⟩

/-- C3 counterexample: two shots whose winning frames have phash distance 9
under profile "strict" (phash_threshold = 6): both frames are selected and
nothing is rejected, because `is_duplicate` flags a duplicate only when the
distance is strictly below the threshold (9 ≥ 6) — the claim that "strict"
rejects the second as duplicate is false. -/
theorem c3_counterexample :
    hashDiff hash0 hashD9 = 9 ∧
    (extract_smart_keyframes envD9 scenesAB 50 1 (3/10) "strict").toOption.map
      (fun r => (r.selected.length, r.rejected.map (fun e => e.reason)))
      = some (2, []) := by
  decide

/-- C3 amended: at phash distance 3 the second shot's winner is rejected as
`duplicate` under both "medium" (3 < 8) and "strict" (3 < 6); at distance 9
both "medium" (9 ≥ 8) and "strict" (9 ≥ 6) accept both frames. -/
theorem c3_phash_threshold_scenarios :
    hashDiff hash0 hashD3 = 3 ∧ hashDiff hash0 hashD9 = 9
    ∧ (extract_smart_keyframes envD3 scenesAB 50 1 (3/10) "medium").toOption.map
        (fun r => (r.selected.length, r.rejected.map (fun e => e.reason)))
        = some (1, [Reason.duplicate])
    ∧ (extract_smart_keyframes envD3 scenesAB 50 1 (3/10) "strict").toOption.map
        (fun r => (r.selected.length, r.rejected.map (fun e => e.reason)))
        = some (1, [Reason.duplicate])
    ∧ (extract_smart_keyframes envD9 scenesAB 50 1 (3/10) "medium").toOption.map
        (fun r => (r.selected.length, r.rejected.map (fun e => e.reason)))
        = some (2, [])
    ∧ (extract_smart_keyframes envD9 scenesAB 50 1 (3/10) "strict").toOption.map
        (fun r => (r.selected.length, r.rejected.map (fun e => e.reason)))
        = some (2, []) := by
  decide

/-- C5 counterexample: when a shot's winning frame has a `None` fingerprint,
the `None` value IS stored in the seen-fingerprint list (the source appends
`current_hash` unconditionally in the non-duplicate branch), contradicting
the claim that it is not stored. -/
theorem c5_counterexample :
    (processShot dupBumpMain envPhashNone "medium" 1 0 ⟨0, 10⟩
      (initState stats0Main)).seen = [none] := by
  decide

/-- C5 amended: `is_duplicate(None, seen, threshold)` is always `False`; a
winning frame with a `None` fingerprint is selected and `None` is appended to
the seen list, but the comparison loop skips `None` entries, so a stored
`None` never affects any later shot's duplicate decision. -/
theorem c5_none_fingerprint_behaviour :
    (∀ (seen : List (Option Fingerprint)) (threshold : ℕ),
       is_duplicate none seen threshold = false)
    ∧ (∀ (c : Option Fingerprint) (pre post : List (Option Fingerprint))
         (threshold : ℕ),
       is_duplicate c (pre ++ none :: post) threshold
         = is_duplicate c (pre ++ post) threshold)
    ∧ (processShot dupBumpMain envPhashNone "medium" 1 0 ⟨0, 10⟩
        (initState stats0Main)).selected.length = 1
    ∧ (processShot dupBumpMain envPhashNone "medium" 1 0 ⟨0, 10⟩
        (initState stats0Main)).seen
      = (initState stats0Main).seen ++ [none] := by
  refine ⟨fun seen threshold => rfl, ?_, by decide, by decide⟩
  intro c pre post threshold
  cases c
  · rfl
  · simp [is_duplicate, List.any_append]

theorem samplePoints_shift (s d : ℚ) (c : ℕ) :
    samplePoints s (s + d) c = (samplePoints 0 d c).map (fun x => s + x) := by
  unfold samplePoints
  rw [List.map_filterMap]
  apply List.filterMap_congr
  intro i _
  dsimp only
  simp only [add_sub_cancel_left, sub_zero, zero_add, add_lt_add_iff_left]
  by_cases hc : d * (0.2 + 0.3 * (i : ℚ)) < d
  · rw [if_pos hc, if_pos hc]; rfl
  · rw [if_neg hc, if_neg hc]; rfl

/-- C7: the candidate timestamps of a shot are exactly the points
`start + duration * (0.2 + 0.3 * i)` for `i` below the sample count that lie
strictly before the shot's end (any point at or past the end is skipped), and
a 10-second shot with the default count 3 yields exactly the timestamps
`start + 2`, `start + 5`, `start + 8`. -/
theorem c7_sample_offsets :
    (∀ (s e : ℚ) (c : ℕ) (t : ℚ),
       t ∈ samplePoints s e c ↔
       ∃ i : ℕ, i < c ∧ t = s + (e - s) * (0.2 + 0.3 * (i : ℚ)) ∧ t < e)
    ∧ (∀ s : ℚ, samplePoints s (s + 10) 3 = [s + 2, s + 5, s + 8]) := by
  constructor
  · intro s e c t
    unfold samplePoints
    rw [List.mem_filterMap]
    constructor
    · rintro ⟨i, hi, hv⟩
      dsimp only at hv
      rw [Option.ite_none_right_eq_some, Option.some.injEq] at hv
      obtain ⟨hlt, hveq⟩ := hv
      exact ⟨i, List.mem_range.mp hi, hveq.symm, hveq ▸ hlt⟩
    · rintro ⟨i, hic, ht, hlt⟩
      refine ⟨i, List.mem_range.mpr hic, ?_⟩
      dsimp only
      rw [Option.ite_none_right_eq_some, Option.some.injEq]
      exact ⟨ht ▸ hlt, ht.symm⟩
  · intro s
    rw [samplePoints_shift s 10 3]
    rw [show samplePoints 0 10 3 = [2, 5, 8] by decide]
    rfl

/-- C6 witness: a sharp, bright frame accepted under "strict" is accepted
under "medium" and "high" by the monotonicity theorem. -/
theorem c6_profile_acceptance_monotone_witness :
    (is_bad_frame (goodFrame 100 (some hash0)) "medium").1 = false
    ∧ (is_bad_frame (goodFrame 100 (some hash0)) "high").1 = false :=
  ⟨(c6_profile_acceptance_monotone (goodFrame 100 (some hash0))).1 (by decide),
   (c6_profile_acceptance_monotone (goodFrame 100 (some hash0))).2 (by decide)⟩

/-- C4 witness: concrete readable frames whose check-2 and check-6
computations raise are kept with reason `check_error`. -/
theorem c4_quality_gate_fail_open_witness :
    is_bad_frame frameBlackErr "medium" = (false, Reason.check_error)
    ∧ is_bad_frame frameHistErr "medium" = (false, Reason.check_error)
    ∧ ((is_bad_frame frameHistErr "medium").1 = false
       ∧ frameHistErr.readable = true) :=
  ⟨c4_quality_gate_fail_open.2.1 frameBlackErr "medium" rfl rfl,
   c4_quality_gate_fail_open.2.2.2.2.2 frameHistErr "medium" 0 1000 (1/2) 100
     rfl rfl (by decide) rfl (by decide) rfl (by decide) rfl (by decide) rfl,
   c4_quality_gate_fail_open.1 frameHistErr "medium" (by decide)⟩
